import Mathlib

/-!
Verification development for the stock-analysis workflow in
`Backend/app/workflows/NewStock_workflow.py` and its caller
`Backend/app/controllers/handle_messages.py`.

The Python code is shallowly embedded: every pure fragment becomes a Lean
function, every external call (research agent, completion model, JSON
decoding) becomes an explicit parameter of type `Except String String`
(success text or raised-exception text) or a parse-outcome function, and
the per-run event dispatch of the workflow engine becomes explicit state
passing over lists of events.  Python numbers that hold propensity scores
are modelled as rationals; Python strings as Lean strings (the inputs that
appear in theorems are ASCII, where `lower`/`strip`/`title` agree between
the two languages).
-/

set_option maxRecDepth 100000

namespace NewStock

/-! ## Python string primitives used by the workflow -/

/-- The ASCII whitespace characters `str.strip()` removes. -/
def py_is_space (c : Char) : Bool :=
  c = ' ' || c = '\t' || c = '\n' || c = '\r' || c = '\x0b' || c = '\x0c'

/-- Python `str.strip()` (leading and trailing whitespace removed). -/
def py_strip (s : String) : String :=
  ⟨((s.toList.dropWhile py_is_space).reverse.dropWhile py_is_space).reverse⟩

/-- Python `str.lower()` restricted to ASCII letters, as used on the queries. -/
def py_lower (s : String) : String := ⟨s.toList.map Char.toLower⟩

/-- Helper for Python `str.title()`: uppercase every letter that does not
follow another letter, lowercase the rest; recursion carries whether the
previous character was a letter. -/
def py_title_go : Bool → List Char → List Char
  | _, [] => []
  | prevAlpha, c :: cs =>
    (if c.isAlpha then (if prevAlpha then c.toLower else c.toUpper) else c)
      :: py_title_go c.isAlpha cs

/-- Python `str.title()`. -/
def py_title (s : String) : String := ⟨py_title_go false s.toList⟩

/-- Index of the first occurrence of `sub` in `l` (Python `str.find`,
result `some i`), or `none` when absent. -/
def find_sub : List Char → List Char → Option Nat
  | l, sub =>
    if sub.isPrefixOf l then some 0
    else
      match l with
      | [] => none
      | _ :: t => (find_sub t sub).map (· + 1)

/-- Python substring test `sub in s`. -/
def py_contains (s sub : String) : Bool :=
  (find_sub s.toList sub.toList).isSome

/-- Index of the last occurrence of `sub` in `l` (Python `str.rfind`,
result `some i`), or `none` when absent. -/
def rfind_sub : List Char → List Char → Option Nat
  | [], sub => if sub.isEmpty then some 0 else none
  | c :: t, sub =>
    match rfind_sub t sub with
    | some i => some (i + 1)
    | none => if sub.isPrefixOf (c :: t) then some 0 else none

/-- Python `s.find(sub)`: first index or `-1`. -/
def py_find (s sub : String) : ℤ :=
  match find_sub s.toList sub.toList with
  | some i => (i : ℤ)
  | none => -1

/-- Python `s.find(sub, start)`: first index at or after `start`, or `-1`. -/
def py_find_from (s sub : String) (start : Nat) : ℤ :=
  match find_sub (s.toList.drop start) sub.toList with
  | some i => ((i + start : Nat) : ℤ)
  | none => -1

/-- Python `s.rfind(sub)`: last index or `-1`. -/
def py_rfind (s sub : String) : ℤ :=
  match rfind_sub s.toList sub.toList with
  | some i => (i : ℤ)
  | none => -1

/-- Python slice `s[a:b]` with negative-index normalization. -/
def py_slice (s : String) (a b : ℤ) : String :=
  let n : ℤ := (s.toList.length : ℤ)
  let norm : ℤ → ℤ := fun i => if i < 0 then max 0 (n + i) else min i n
  ⟨(s.toList.take (norm b).toNat).drop (norm a).toNat⟩

/-- Python `int()` truncation toward zero, applied to the score rationals. -/
def py_int (q : ℚ) : ℤ := if q < 0 then ⌈q⌉ else ⌊q⌋

/-- Python string repetition `s * n` (empty for non-positive `n`). -/
def py_repeat (s : String) (n : ℤ) : String :=
  String.join (List.replicate n.toNat s)

/-- Python `str()`/f-string rendering of a float that holds an integral
value, as produced by `float(...)` on an integer JSON score: `8.0`, `80.0`.
Non-integral values do not occur in the statements proved below; they are
rendered as `num/den` which is only a placeholder. -/
def py_float_str (q : ℚ) : String :=
  if q.den = 1 then toString q.num ++ ".0"
  else toString q.num ++ "/" ++ toString q.den

/-! ## Event types (`NewStock_workflow.py`, lines 54-78) -/

/-- One of the four analysis branches (the event classes
`MarketingSignalEvent`, `LeadershipChangeEvent`, `CompetitorAdSpendEvent`,
`ThreeMonthReportEvent` that trigger them). -/
inductive AnalysisKind
  | MarketingSignal
  | LeadershipChange
  | CompetitorAdSpend
  | ThreeMonthReport
deriving DecidableEq, Repr

/-- `ResponseEvent`: the single event class emitted by all four analysis
steps.  It carries no field identifying which branch produced it. -/
structure ResponseEvent where
  user_query : String
  response : String
deriving DecidableEq, Repr

/-- `AnalyzerResponseEvent` exactly as declared at lines 70-73: fields
`user_query`, `rationale`, `propensity_score` and nothing else (in
particular no `strategic_recommendations` field). -/
structure AnalyzerResponseEvent where
  user_query : String
  rationale : String
  propensity_score : ℚ
deriving DecidableEq, Repr

/-- `ReportGeneratedEvent` (lines 75-78). -/
structure ReportGeneratedEvent where
  user_query : String
  response : String
  propensity_score : ℚ
deriving DecidableEq, Repr

/-- The result dictionary built by `final_answer` (lines 517-523) and by
the fallback of `run_new_stock_workflow` (lines 544-550). -/
structure FinalResult where
  response : String
  user_query : String
  propensity_score : ℚ
  score_category : String
  visual_indicator : String
deriving DecidableEq, Repr

/-! ## Entry step and the four analysis steps -/

/-- `trigger_new_stock` (lines 312-324): sends exactly one trigger event per
analysis kind, each carrying the user query. -/
def trigger_new_stock (user_query : String) : List (AnalysisKind × String) :=
  [(.MarketingSignal, user_query), (.LeadershipChange, user_query),
   (.CompetitorAdSpend, user_query), (.ThreeMonthReport, user_query)]

/-- `marketing_signal_agent` (lines 326-339).  The external call
`search_agent.run(prompt)` is the parameter: `Except.ok s` models a normal
return with text `s`, `Except.error e` models a raised exception whose
`str()` is `e` (everything the `except Exception` clause catches). -/
def marketing_signal_agent (user_query : String)
    (research : Except String String) : ResponseEvent :=
  match research with
  | .ok summary => ⟨user_query, summary⟩
  | .error e => ⟨user_query, "Error in marketing signal analysis: " ++ e⟩

/-- `leadership_change_agent` (lines 341-354). -/
def leadership_change_agent (user_query : String)
    (research : Except String String) : ResponseEvent :=
  match research with
  | .ok summary => ⟨user_query, summary⟩
  | .error e => ⟨user_query, "Error in leadership change analysis: " ++ e⟩

/-- `competitor_ad_spend_agent` (lines 356-369). -/
def competitor_ad_spend_agent (user_query : String)
    (research : Except String String) : ResponseEvent :=
  match research with
  | .ok summary => ⟨user_query, summary⟩
  | .error e => ⟨user_query, "Error in competitor ad spend analysis: " ++ e⟩

/-- `three_month_report_agent` (lines 371-384). -/
def three_month_report_agent (user_query : String)
    (research : Except String String) : ResponseEvent :=
  match research with
  | .ok summary => ⟨user_query, summary⟩
  | .error e => ⟨user_query, "Error in three month report analysis: " ++ e⟩

/-- Dispatch of an analysis-trigger event to its step. -/
def agent_step (k : AnalysisKind) (user_query : String)
    (research : Except String String) : ResponseEvent :=
  match k with
  | .MarketingSignal => marketing_signal_agent user_query research
  | .LeadershipChange => leadership_change_agent user_query research
  | .CompetitorAdSpend => competitor_ad_spend_agent user_query research
  | .ThreeMonthReport => three_month_report_agent user_query research

/-! ## The join primitive and the analyzer step

`analyzer_agent` (lines 386-394) starts with
`ready = ctx.collect_events(ev, [ResponseEvent]*4)` and returns `None`
until `ready` is non-`None`.  `Context.collect_events` of the workflow
engine the source imports (llama-index) keeps one FIFO buffer per event
*type*: it appends the incoming event to its buffer, pops one buffered
event per entry of the expected list (here four entries, all the same type
`ResponseEvent`), returns the popped events when all entries were served
and otherwise restores the buffer and returns `None`.  With four expected
entries of one single type this is: buffer the event; once four events are
buffered, return the first four in arrival order. -/

/-- One delivery to the join of `analyzer_agent`: the updated buffer and
the collected list when the barrier of four is reached. -/
def collect_step (buffer : List ResponseEvent) (ev : ResponseEvent) :
    List ResponseEvent × Option (List ResponseEvent) :=
  let buf := buffer ++ [ev]
  if 4 ≤ buf.length then (buf.drop 4, some (buf.take 4)) else (buf, none)

/-- Output of the `analyzer_agent` join at each successive delivery,
starting from the given buffer. -/
def deliveries_outputs : List ResponseEvent → List ResponseEvent →
    List (Option (List ResponseEvent))
  | _, [] => []
  | buffer, e :: rest =>
    let r := collect_step buffer e
    r.2 :: deliveries_outputs r.1 rest

/-- The deliveries of one run to the analyzer step: the emitting branch of each
`ResponseEvent` is recorded as a ghost tag, which the join (faithful to
the code, where all four events share one untagged type) never reads. -/
def run_join (arrivals : List (AnalysisKind × ResponseEvent)) :
    List (Option (List ResponseEvent)) :=
  deliveries_outputs [] (arrivals.map Prod.snd)

/-- First firing of the join over the successive delivery outputs. -/
def first_firing : List (Option (List ResponseEvent)) →
    Option (List ResponseEvent)
  | [] => none
  | some r :: _ => some r
  | none :: rest => first_firing rest

/-- The four slots of `ANALYZER_PROMPT.format(...)` (lines 397-403):
`marketing` is filled from `ready[0].response`, `leadership` from
`ready[1].response`, `competitor` from `ready[2].response`, `report` from
`ready[3].response`. -/
structure AnalyzerInput where
  marketing : String
  leadership : String
  competitor : String
  report : String
deriving DecidableEq, Repr

/-- Slot assignment `ready[0]..ready[3]` of `analyzer_agent`. -/
def analyzer_slots : List ResponseEvent → Option AnalyzerInput
  | m :: l :: c :: r :: _ =>
    some ⟨m.response, l.response, c.response, r.response⟩
  | _ => none

/-- The analyzer prompt slots produced by a whole run with the given
tagged arrival sequence. -/
def analyzer_input_of_run (arrivals : List (AnalysisKind × ResponseEvent)) :
    Option AnalyzerInput :=
  (first_firing (run_join arrivals)).bind analyzer_slots

/-! ## Parsing of the scoring response (`analyzer_agent`, lines 405-451) -/

/-- The relevant shape of a successful `json.loads` of the scoring
response followed by the field coercions at lines 427-429: the score
(present and `float(...)`-coercible), the rationale string, and the
`strategic_recommendations` list that the JSON may carry. -/
structure ScoreJson where
  propensity_score : Option ℚ
  rationale : Option String
  strategic_recommendations : Option (List String)
deriving DecidableEq, Repr

/-- Selection of the JSON text inside the scoring response (lines
413-425): a fenced block between "```json" and the following "```" if
present, else the span from the first brace to the last brace, else the
whole text. -/
def extract_json_text (response_text : String) : String :=
  if py_contains response_text "```json" && py_contains response_text "```" then
    let start := py_find response_text "```json" + 7
    let e := py_find_from response_text "```" start.toNat
    py_strip (py_slice response_text start e)
  else
    let start := py_find response_text "\x7b"
    let e := py_rfind response_text "\x7d" + 1
    if start ≠ -1 ∧ e ≠ 0 then py_slice response_text start e
    else response_text

/-- Score/rationale extraction of `analyzer_agent` (lines 408-434) on a
successful completion with raw text `raw_text`.  The parameter `loads`
models `json.loads` on the selected JSON text together with the field
reads at lines 427-429; it returns `none` exactly when that region raises
(invalid JSON, a non-object result, or a present score that `float()`
cannot coerce), in which case the code falls back to score `0.0` and
`rationale = response.text.strip()`. -/
def analyzer_parse (loads : String → Option ScoreJson)
    (raw_text : String) : ℚ × String :=
  let response_text := py_strip raw_text
  let json_text := extract_json_text response_text
  match loads json_text with
  | some result => (result.propensity_score.getD 0, result.rationale.getD "")
  | none => (0, response_text)

/-- `analyzer_agent`, lines 405-451, after the join has fired: the outer
try wraps the completion call `openai_llm.acomplete(prompt)` (the
`acomplete` parameter); its failure yields the score-0 error event of
lines 444-451. -/
def analyzer_agent (user_query : String) (loads : String → Option ScoreJson)
    (acomplete : Except String String) : AnalyzerResponseEvent :=
  match acomplete with
  | .ok raw_text =>
    let p := analyzer_parse loads raw_text
    ⟨user_query, p.2, p.1⟩
  | .error e => ⟨user_query, "Error in analyzer agent: " ++ e, 0⟩

/-! ## Company-name normalization (`_extract_company_name`, lines 177-310) -/

/-- The static mapping table of lines 185-298 in source (insertion) order.
The Python dict literal repeats some keys (`square`, `zoom`, `salesforce`,
`calendly`, `acuity`, `doodle`, `when2meet`, `scheduleonce`, `appointy`,
`simplybook`, `bookly`, `picktime`, `reservio`, `bookingbug`, each with a
value identical to its first occurrence), and a re-assigned dict key keeps
its original position, so the dict equals this first-occurrence list. -/
def company_mappings : List (String × String) :=
  [("youtube", "YouTube (Google)"),
   ("google", "Google (Alphabet Inc.)"),
   ("alphabet", "Alphabet Inc."),
   ("meta", "Meta Platforms Inc."),
   ("facebook", "Meta Platforms Inc."),
   ("apple", "Apple Inc."),
   ("microsoft", "Microsoft Corporation"),
   ("amazon", "Amazon.com Inc."),
   ("tesla", "Tesla Inc."),
   ("nvidia", "NVIDIA Corporation"),
   ("netflix", "Netflix Inc."),
   ("spotify", "Spotify Technology S.A."),
   ("uber", "Uber Technologies Inc."),
   ("airbnb", "Airbnb Inc."),
   ("twitter", "X (formerly Twitter)"),
   ("x", "X (formerly Twitter)"),
   ("tiktok", "TikTok (ByteDance)"),
   ("bytedance", "ByteDance Ltd."),
   ("snapchat", "Snap Inc."),
   ("snap", "Snap Inc."),
   ("pinterest", "Pinterest Inc."),
   ("linkedin", "LinkedIn (Microsoft)"),
   ("salesforce", "Salesforce Inc."),
   ("oracle", "Oracle Corporation"),
   ("ibm", "IBM Corporation"),
   ("intel", "Intel Corporation"),
   ("amd", "Advanced Micro Devices Inc."),
   ("qualcomm", "Qualcomm Inc."),
   ("cisco", "Cisco Systems Inc."),
   ("adobe", "Adobe Inc."),
   ("paypal", "PayPal Holdings Inc."),
   ("square", "Block Inc."),
   ("stripe", "Stripe Inc."),
   ("zoom", "Zoom Video Communications Inc."),
   ("slack", "Slack Technologies Inc."),
   ("dropbox", "Dropbox Inc."),
   ("box", "Box Inc."),
   ("atlassian", "Atlassian Corporation"),
   ("servicenow", "ServiceNow Inc."),
   ("workday", "Workday Inc."),
   ("snowflake", "Snowflake Inc."),
   ("databricks", "Databricks Inc."),
   ("palantir", "Palantir Technologies Inc."),
   ("crowdstrike", "CrowdStrike Holdings Inc."),
   ("okta", "Okta Inc."),
   ("zendesk", "Zendesk Inc."),
   ("shopify", "Shopify Inc."),
   ("roku", "Roku Inc."),
   ("peloton", "Peloton Interactive Inc."),
   ("docu", "DocuSign Inc."),
   ("docusign", "DocuSign Inc."),
   ("twilio", "Twilio Inc."),
   ("sendgrid", "Twilio Inc."),
   ("mailchimp", "Mailchimp (Intuit)"),
   ("hubspot", "HubSpot Inc."),
   ("monday", "Monday.com Ltd."),
   ("asana", "Asana Inc."),
   ("trello", "Atlassian Corporation"),
   ("notion", "Notion Labs Inc."),
   ("airtable", "Airtable Inc."),
   ("figma", "Figma Inc."),
   ("canva", "Canva Pty Ltd."),
   ("grammarly", "Grammarly Inc."),
   ("lastpass", "LogMeIn Inc."),
   ("1password", "1Password Inc."),
   ("dashlane", "Dashlane Inc."),
   ("bitwarden", "Bitwarden Inc."),
   ("expressvpn", "ExpressVPN (Kape Technologies)"),
   ("nordvpn", "NordVPN (Nord Security)"),
   ("surfshark", "Surfshark (Nord Security)"),
   ("proton", "Proton AG"),
   ("protonmail", "Proton AG"),
   ("protonvpn", "Proton AG"),
   ("tutanota", "Tutanota GmbH"),
   ("signal", "Signal Foundation"),
   ("telegram", "Telegram FZ-LLC"),
   ("whatsapp", "WhatsApp (Meta)"),
   ("discord", "Discord Inc."),
   ("teams", "Microsoft Teams (Microsoft)"),
   ("webex", "Webex (Cisco)"),
   ("gotomeeting", "GoTo Meeting (LogMeIn)"),
   ("bluejeans", "BlueJeans (Verizon)"),
   ("jitsi", "Jitsi (8x8)"),
   ("whereby", "Whereby (Videxio AS)"),
   ("calendly", "Calendly Inc."),
   ("acuity", "Acuity Scheduling Inc."),
   ("doodle", "Doodle AG"),
   ("when2meet", "When2meet Inc."),
   ("scheduleonce", "ScheduleOnce Inc."),
   ("appointy", "Appointy Inc."),
   ("simplybook", "SimplyBook.me Ltd."),
   ("bookly", "Bookly Inc."),
   ("picktime", "Picktime Inc."),
   ("reservio", "Reservio Inc."),
   ("bookingbug", "BookingBug Ltd.")]

/-- `_extract_company_name` (lines 177-310): lowercase and strip the
query; exact dict lookup first; else the first key of the table (in
insertion order) with `key in query_lower or query_lower in key`; else
`user_query.strip().title()`. -/
def extract_company_name (user_query : String) : String :=
  let query_lower := py_strip (py_lower user_query)
  match company_mappings.find? (fun kv => kv.1 == query_lower) with
  | some kv => kv.2
  | none =>
    match company_mappings.find?
        (fun kv => py_contains query_lower kv.1 || py_contains kv.1 query_lower) with
    | some kv => kv.2
    | none => py_title (py_strip user_query)

/-! ## Report step and terminal step -/

/-- The values interpolated into `REPORT_PROMPT.format(...)` at lines
464-470 of `report_agent`. -/
structure ReportPromptInput where
  company_name : String
  propensity_score : ℚ
  rationale : String
  strategic_recommendations : String
deriving DecidableEq, Repr

/-- Line 468 of `report_agent`:
`getattr(ev, "strategic_recommendations", "")`.  `AnalyzerResponseEvent`
declares no such field and `analyzer_agent` constructs the event from
`propensity_score`, `rationale` and `user_query` only (lines 439-443 and
447-451), so the `getattr` default, the empty string, is always taken. -/
def report_strategic_recommendations (ev : AnalyzerResponseEvent) : String :=
  let _ := ev
  ""

/-- The report prompt inputs built by `report_agent` (lines 461-470). -/
def report_prompt_input (ev : AnalyzerResponseEvent) : ReportPromptInput :=
  ⟨extract_company_name ev.user_query, ev.propensity_score, ev.rationale,
   report_strategic_recommendations ev⟩

/-- `report_agent` (lines 453-488): the completion call is the `acomplete`
parameter; both the success branch and the except branch forward
`ev.propensity_score` unchanged. -/
def report_agent (ev : AnalyzerResponseEvent)
    (acomplete : Except String String) : ReportGeneratedEvent :=
  match acomplete with
  | .ok response_text =>
    ⟨ev.user_query, py_strip response_text, ev.propensity_score⟩
  | .error e =>
    ⟨ev.user_query, "Error in report generation: " ++ e, ev.propensity_score⟩

/-- The category/indicator pair of `final_answer` (lines 496-505):
`>= 8` gives High with the green marker, `>= 5` gives Medium with the
yellow marker, anything below gives Low with the red marker. -/
def score_category_of (propensity_score : ℚ) : String × String :=
  if propensity_score ≥ 8 then ("High", "🟢 High")
  else if propensity_score ≥ 5 then ("Medium", "🟡 Medium")
  else ("Low", "🔴 Low")

/-- The value `propensity_score * 10` interpolated at line 511, written
with `mkRat` so that it evaluates inside the kernel; `times_ten_eq` below
proves it equal to the product. -/
def times_ten (q : ℚ) : ℚ := mkRat (q.num * 10) q.den

theorem times_ten_eq (q : ℚ) : times_ten q = q * 10 := by
  unfold times_ten
  rw [Rat.mkRat_eq_div]
  push_cast
  rw [mul_comm, mul_div_assoc, Rat.num_div_den, mul_comm]

/-- `final_answer` (lines 490-526): derives the category and indicator,
builds the score bar and the enhanced narrative, and returns the result
record of lines 517-523. -/
def final_answer (ev : ReportGeneratedEvent) : FinalResult :=
  let propensity_score := ev.propensity_score
  let cat := score_category_of propensity_score
  let score_bar := py_repeat "█" (py_int propensity_score)
      ++ py_repeat "░" (10 - py_int propensity_score)
  let enhanced_response := py_strip
      ("\n## Propensity Score Analysis: " ++ ev.user_query
       ++ "\n\n**Score:** " ++ py_float_str propensity_score ++ "/10 ("
       ++ cat.1 ++ " Propensity)\n**Visual:** [" ++ score_bar ++ "] "
       ++ py_float_str (times_ten propensity_score) ++ "% " ++ cat.2
       ++ "\n\n---\n\n" ++ ev.response ++ "\n        ")
  ⟨enhanced_response, ev.user_query, propensity_score, cat.1, cat.2⟩

/-! ## Run supervisor (`run_new_stock_workflow`, lines 529-551) -/

/-- The fallback dictionary of lines 544-550. -/
def fallback_result (user_query : String) : FinalResult :=
  ⟨"## Propensity Score Analysis: " ++ user_query
     ++ "\n\n**Score:** Unable to calculate\n\n**Error:** The analysis could not be completed due to a technical issue. Please try again later.",
   user_query, 0, "Error", "🔴 Error"⟩

/-- `run_new_stock_workflow`: the try block constructs the workflow and
calls `workflow.run(...)`, which only schedules the run and returns a
handler immediately; the function returns that handler.  `start_workflow`
models the synchronous part covered by the try (construction and
scheduling); `handler_outcome` models what awaiting the returned handler
later produces: the terminal `FinalResult`, or a raised exception
(`Except.error`, e.g. the `WorkflowTimeoutError` raised when the
300-second deadline elapses).  The value delivered to the caller is the
fallback only when the synchronous part raises; otherwise it is the
handler outcome, exception included. -/
def run_new_stock_workflow (user_query : String)
    (start_workflow : Except String Unit)
    (handler_outcome : Except String FinalResult) :
    Except String FinalResult :=
  match start_workflow with
  | .error _ => .ok (fallback_result user_query)
  | .ok _ => handler_outcome

/-! ## Whole pipeline for one run -/

/-- One full run: the four branches fire in completion order `order`, each
research call outcome of each branch given by `research`; the scoring completion
and JSON decoding by `scoring` and `loads`; the report completion by
`report_llm`.  Produces the terminal result once the join has fired. -/
def run_pipeline (user_query : String) (order : List AnalysisKind)
    (research : AnalysisKind → Except String String)
    (loads : String → Option ScoreJson)
    (scoring : Except String String)
    (report_llm : Except String String) : Option FinalResult :=
  let arrivals := order.map (fun k => (k, agent_step k user_query (research k)))
  (first_firing (run_join arrivals)).map (fun _ready =>
    final_answer (report_agent (analyzer_agent user_query loads scoring) report_llm))

/-! ## Concrete data used by the claim theorems -/

/-- The scoring-collaborator JSON of the worked example. -/
def rawJson : String :=
  "\x7b\"propensity_score\": 8, \"rationale\": \"r\", \"strategic_recommendations\": [\"a\"]\x7d"

/-- `json.loads` plus the field coercions, stipulated on the example JSON
per JSON semantics: score 8, rationale "r", recommendations ["a"]. -/
def loads_c8 : String → Option ScoreJson :=
  fun s => if s = rawJson then some ⟨some 8, some "r", some ["a"]⟩ else none

/-- A decoding that fails on every text: models a scoring response that is
not parseable as JSON anywhere. -/
def loads_none : String → Option ScoreJson := fun _ => none

/-- The example end-to-end run: query "Analyze Meta", the four research
calls returning canned non-empty text, branches completing in declared
order, the scoring collaborator returning `rawJson`, the report
collaborator returning a canned body. -/
def final_c8 : Option FinalResult :=
  run_pipeline "Analyze Meta"
    [.MarketingSignal, .LeadershipChange, .CompetitorAdSpend, .ThreeMonthReport]
    (fun _ => .ok "canned analysis text") loads_c8 (.ok rawJson)
    (.ok "Business report body.")

/-! ## Claim theorems -/

/-- C1: the claim says the join hands the analyzer the four response
events in declared-kind order (ready[0] = marketing, ready[1] =
leadership, ready[2] = competitor, ready[3] = report) for every arrival
order.  In the code all four branches emit the same untagged
`ResponseEvent` type and the join is `collect_events(ev,
[ResponseEvent]*4)`, whose per-type FIFO buffer returns the first four
events in arrival order; the events carry nothing identifying their
branch.  At the failing arrival order (leadership first, then marketing,
competitor, report) the `marketing` prompt slot receives the
text of the leadership branch, not that of the marketing branch. -/
theorem C1_marketing_slot_gets_first_arrival :
    analyzer_input_of_run
      [(.LeadershipChange, ⟨"Analyze Meta", "leadership-text"⟩),
       (.MarketingSignal, ⟨"Analyze Meta", "marketing-text"⟩),
       (.CompetitorAdSpend, ⟨"Analyze Meta", "competitor-text"⟩),
       (.ThreeMonthReport, ⟨"Analyze Meta", "report-text"⟩)] =
      some ⟨"leadership-text", "marketing-text", "competitor-text", "report-text"⟩
    ∧ (some (⟨"leadership-text", "marketing-text", "competitor-text",
        "report-text"⟩ : AnalyzerInput)).map AnalyzerInput.marketing
      ≠ some "marketing-text" := by
  exact ⟨rfl, by decide⟩

/-- C2: every exception raised by the external research call inside one of
the four analysis steps is converted into a returned `ResponseEvent` whose
text is "Error in <kind> analysis: <cause>"; no exception propagates (each
step is a total function into `ResponseEvent`). -/
theorem C2_branch_failure_isolated :
    ∀ (q e : String),
      marketing_signal_agent q (Except.error e) =
        ⟨q, "Error in marketing signal analysis: " ++ e⟩ ∧
      leadership_change_agent q (Except.error e) =
        ⟨q, "Error in leadership change analysis: " ++ e⟩ ∧
      competitor_ad_spend_agent q (Except.error e) =
        ⟨q, "Error in competitor ad spend analysis: " ++ e⟩ ∧
      three_month_report_agent q (Except.error e) =
        ⟨q, "Error in three month report analysis: " ++ e⟩ :=
  fun _ _ => ⟨rfl, rfl, rfl, rfl⟩

/-- C3 (amended): the analyzer join returns `None` on each of the first
three `ResponseEvent` deliveries and fires exactly once, on the fourth
delivery; it counts events of the one shared type only, without any
distinct-kind validation. -/
theorem C3_join_fires_exactly_on_fourth :
    ∀ (e1 e2 e3 e4 : ResponseEvent),
      deliveries_outputs [] [e1, e2, e3, e4] =
        [none, none, none, some [e1, e2, e3, e4]] := by
  intro e1 e2 e3 e4
  rfl

/-- C3 counterexample: the claim demands that the barrier not silently
accept a multiset of events with a repeated kind, but four events all
emitted by the marketing branch satisfy it and fire the join. -/
theorem C3_repeated_kind_multiset_accepted :
    run_join
      [(.MarketingSignal, ⟨"q", "a"⟩), (.MarketingSignal, ⟨"q", "b"⟩),
       (.MarketingSignal, ⟨"q", "c"⟩), (.MarketingSignal, ⟨"q", "d"⟩)] =
      [none, none, none,
       some [⟨"q", "a"⟩, ⟨"q", "b"⟩, ⟨"q", "c"⟩, ⟨"q", "d"⟩]] := rfl

/-- C4: the claim says a timeout or run-level failure reaches the caller
of `run_new_stock_workflow` as a fallback result with score 0.0 and
category "Error" and never as an exception.  In the code the try block
only covers constructing the workflow and the immediately returning
`workflow.run(...)`; the deadline is enforced when the returned handler is
awaited, outside the try, so the `WorkflowTimeoutError` reaches the caller
as a raised exception and the fallback is not produced. -/
theorem C4_timeout_exception_reaches_caller :
    run_new_stock_workflow "Analyze Meta" (.ok ())
        (.error "WorkflowTimeoutError: Operation timed out after 300 seconds") =
      .error "WorkflowTimeoutError: Operation timed out after 300 seconds"
    ∧ run_new_stock_workflow "Analyze Meta" (.ok ())
        (.error "WorkflowTimeoutError: Operation timed out after 300 seconds") ≠
      .ok (fallback_result "Analyze Meta") := by
  refine ⟨rfl, fun h => ?_⟩
  exact Except.noConfusion h

/-- C5 (amended): when the selected JSON text of the scoring response does
not decode, the analyzer produces score 0 and a rationale equal to the raw
response text with leading and trailing whitespace stripped (the code
strips before falling back, so the rationale is not the verbatim raw
text). -/
theorem C5_parse_failure_gives_zero_and_stripped_text :
    ∀ (loads : String → Option ScoreJson) (q raw : String),
      loads (extract_json_text (py_strip raw)) = none →
      analyzer_agent q loads (Except.ok raw) = ⟨q, py_strip raw, 0⟩ := by
  intro loads q raw h
  simp only [analyzer_agent, analyzer_parse, h]

/-- C5 witness: the amended theorem applied to an always-failing decode
and the concrete response " plain text\n". -/
theorem C5_parse_failure_gives_zero_and_stripped_text_witness :
    analyzer_agent "q" loads_none (Except.ok " plain text\n") =
      ⟨"q", "plain text", 0⟩ :=
  C5_parse_failure_gives_zero_and_stripped_text loads_none "q" " plain text\n" rfl

/-- C5 counterexample: for the unparseable response " plain text\n" the
code yields rationale "plain text", which is not the raw response text
verbatim, refuting the claim as stated. -/
theorem C5_rationale_not_verbatim :
    (analyzer_agent "q" loads_none (Except.ok " plain text\n")).propensity_score = 0
    ∧ (analyzer_agent "q" loads_none (Except.ok " plain text\n")).rationale =
        "plain text"
    ∧ (analyzer_agent "q" loads_none (Except.ok " plain text\n")).rationale ≠
        " plain text\n" := by
  exact ⟨rfl, rfl, by decide⟩

/-- C6: the category/indicator mapping of the terminal step is the fixed
threshold function: score at least 8 gives "High" with the green marker,
score in [5, 8) gives "Medium" with the yellow marker, score below 5 gives
"Low" with the red marker; in particular the 0-on-failure score lands in
the last case. -/
theorem C6_threshold_mapping :
    ∀ (ev : ReportGeneratedEvent),
      (8 ≤ ev.propensity_score →
        (final_answer ev).score_category = "High" ∧
        (final_answer ev).visual_indicator = "🟢 High") ∧
      (5 ≤ ev.propensity_score → ev.propensity_score < 8 →
        (final_answer ev).score_category = "Medium" ∧
        (final_answer ev).visual_indicator = "🟡 Medium") ∧
      (ev.propensity_score < 5 →
        (final_answer ev).score_category = "Low" ∧
        (final_answer ev).visual_indicator = "🔴 Low") := by
  intro ev
  have hc : (final_answer ev).score_category =
      (score_category_of ev.propensity_score).1 := rfl
  have hv : (final_answer ev).visual_indicator =
      (score_category_of ev.propensity_score).2 := rfl
  refine ⟨fun h => ?_, fun h5 h8 => ?_, fun h => ?_⟩ <;>
      rw [hc, hv] <;> unfold score_category_of
  · rw [if_pos h]
    exact ⟨rfl, rfl⟩
  · rw [if_neg (not_le.mpr h8), if_pos h5]
    exact ⟨rfl, rfl⟩
  · rw [if_neg (not_le.mpr (show ev.propensity_score < 8 by linarith)),
      if_neg (not_le.mpr h)]
    exact ⟨rfl, rfl⟩

/-- C6 witness: the three threshold cases at scores 9, 6 and 0. -/
theorem C6_threshold_mapping_witness :
    (final_answer ⟨"q", "r", 9⟩).score_category = "High" ∧
    (final_answer ⟨"q", "r", 6⟩).score_category = "Medium" ∧
    (final_answer ⟨"q", "r", 0⟩).score_category = "Low" :=
  ⟨((C6_threshold_mapping ⟨"q", "r", 9⟩).1 (by norm_num)).1,
   ((C6_threshold_mapping ⟨"q", "r", 6⟩).2.1 (by norm_num) (by norm_num)).1,
   ((C6_threshold_mapping ⟨"q", "r", 0⟩).2.2 (by norm_num)).1⟩

/-- C7: the claim says the aggregation step parses
`strategic_recommendations` as a sequence of strings and that this
sequence reaches the template slot of the report step.  In the code the decoded
recommendation list of the decoded JSON is never read (lines 427-429 read only the
score and the rationale), `AnalyzerResponseEvent` has no such field, and
`report_agent` fills the slot with `getattr(ev,
"strategic_recommendations", "")`, the empty-string default — evaluated
here on the example JSON whose recommendations are ["a"]. -/
theorem C7_recommendations_discarded :
    loads_c8 (extract_json_text (py_strip rawJson)) =
      some ⟨some 8, some "r", some ["a"]⟩
    ∧ analyzer_agent "Analyze Meta" loads_c8 (Except.ok rawJson) =
        ⟨"Analyze Meta", "r", 8⟩
    ∧ (report_prompt_input
        (analyzer_agent "Analyze Meta" loads_c8 (Except.ok rawJson))).strategic_recommendations
        = "" := by
  refine ⟨by decide, by decide, rfl⟩

/-- C8 (amended): the worked example — query "Analyze Meta", canned
non-empty branch texts, scoring response `rawJson` — yields score 8 and
category "High", and the narrative contains the substring "8.0/10" (the
score is a Python float, rendered "8.0", so the claimed substring "8/10"
does not occur). -/
theorem C8_example_run :
    final_c8.map FinalResult.propensity_score = some 8
    ∧ final_c8.map FinalResult.score_category = some "High"
    ∧ final_c8.map (fun r => py_contains r.response "8.0/10") = some true := by
  refine ⟨by decide, by decide, by decide⟩

/-- C8 counterexample: the narrative of the worked example does not
contain the literal substring "8/10" the claim asserts. -/
theorem C8_narrative_lacks_8_slash_10 :
    final_c8.map (fun r => py_contains r.response "8/10") = some false := by
  decide

/-- The normalization exactly as the claim words it: mapped name on exact
table lookup of the lowercased, stripped query; else the value of the
first table key related to the query by substring match; else the
title-cased original query (no stripping before title-casing). -/
def extract_company_name_claim (user_query : String) : String :=
  let query_lower := py_strip (py_lower user_query)
  match company_mappings.lookup query_lower with
  | some v => v
  | none =>
    match company_mappings.find?
        (fun kv => py_contains query_lower kv.1 || py_contains kv.1 query_lower) with
    | some kv => kv.2
    | none => py_title user_query

/-- The claim amended at its fallback only: the title-casing applies to
the original query with surrounding whitespace stripped. -/
def extract_company_name_amended (user_query : String) : String :=
  let query_lower := py_strip (py_lower user_query)
  match company_mappings.lookup query_lower with
  | some v => v
  | none =>
    match company_mappings.find?
        (fun kv => py_contains query_lower kv.1 || py_contains kv.1 query_lower) with
    | some kv => kv.2
    | none => py_title (py_strip user_query)

/-- Association-list lookup agrees with searching for the first pair whose
key matches. -/
theorem lookup_eq_find_key (k : String) :
    ∀ (l : List (String × String)),
      List.lookup k l = (l.find? fun kv => kv.1 == k).map Prod.snd := by
  intro l
  induction l with
  | nil => rfl
  | cons a t ih =>
    rcases a with ⟨x, y⟩
    by_cases h : k = x
    · subst h
      simp [List.lookup, List.find?]
    · have h1 : (k == x) = false := beq_eq_false_iff_ne.mpr h
      have h2 : (x == k) = false := beq_eq_false_iff_ne.mpr (Ne.symm h)
      simp [List.lookup, List.find?, h1, h2, ih]

/-- C9 (amended): the company-name normalization is the total function the
claim describes, except that the fallback title-cases the stripped
original query: exact match of the lowercased stripped query against the
table, else the first key related to the query by substring match (in
table order), else `title()` of the stripped query. -/
theorem C9_normalization_characterized :
    ∀ (user_query : String),
      extract_company_name user_query =
        extract_company_name_amended user_query := by
  intro q
  simp only [extract_company_name, extract_company_name_amended,
    lookup_eq_find_key]
  cases h : company_mappings.find? fun kv => kv.1 == py_strip (py_lower q) with
  | none => simp [h]
  | some kv => simp [h]

/-- C9 counterexample: on the query "zzz " (no exact and no substring
table match) the code returns the title-cased *stripped* query "Zzz",
while the fallback the claim states, the title-cased original query, is "Zzz ". -/
theorem C9_fallback_strips_before_title_case :
    extract_company_name "zzz " = "Zzz"
    ∧ extract_company_name_claim "zzz " = "Zzz "
    ∧ extract_company_name "zzz " ≠ extract_company_name_claim "zzz " := by
  refine ⟨by decide, by decide, by decide⟩

/-- C10: the propensity score is forwarded unchanged by `report_agent` on
both its success and its error branch, and the terminal result carries the
same score. -/
theorem C10_score_preserved_downstream :
    ∀ (ev : AnalyzerResponseEvent) (llm : Except String String),
      (report_agent ev llm).propensity_score = ev.propensity_score ∧
      (final_answer (report_agent ev llm)).propensity_score =
        ev.propensity_score := by
  intro ev llm
  cases llm <;> exact ⟨rfl, rfl⟩

end NewStock
